import Mathlib

/-!
# Verification of the gemini-live-avatar session client

A shallow embedding of the session client found in this repository:
the audio playback scheduler, the tool-call dispatcher backed by the
file-system and calendar providers, the message handler of the live
session hook (the repository ships two revisions of the hook, called
v1 and v2 below; v2 is the one with the calendar/browser tools and
the "bye" voice command), the connect/disconnect lifecycle, and the
calendar alarm monitor.

Machine conventions of the embedding:
* JavaScript numbers used for audio clocks and durations are modelled
  as rationals; epoch milliseconds are modelled as integers.
* JavaScript strings are Lean strings; `toLowerCase`, `trim` and
  `includes` are modelled character-wise below.
* Browser objects (audio contexts, media streams, DOM) are modelled by
  the observable facts the code reads from them (booleans, durations).
-/

namespace GLive

/-! ## String primitives (models of the JS string methods the code uses) -/

/-- Model of `needle` being a leading segment of `hay`, on character lists. -/
def startsWithL : List Char → List Char → Bool
  | [], _ => true
  | _ :: _, [] => false
  | a :: as, b :: bs => a == b && startsWithL as bs

/-- Model of JS `hay.includes(needle)`, on character lists. -/
def containsL (needle : List Char) : List Char → Bool
  | [] => needle.isEmpty
  | h :: t => startsWithL needle (h :: t) || containsL needle t

/-- Model of JS `hay.includes(needle)` on strings. -/
def strContains (hay needle : String) : Bool :=
  containsL needle.data hay.data

/-- Model of JS `toLowerCase` (character-wise; the code only compares
ASCII command words and identifiers). -/
def lowerStr (s : String) : String :=
  ⟨s.data.map Char.toLower⟩

/-- Model of JS `trim`: drop whitespace from both ends. -/
def trimStr (s : String) : String :=
  ⟨((s.data.dropWhile Char.isWhitespace).reverse.dropWhile Char.isWhitespace).reverse⟩

/-! ## Playback scheduler (v1 lines 438-460, v2 lines 909-931)

On each decoded chunk the code runs
`nextStartTimeRef.current = Math.max(nextStartTimeRef.current, ctx.currentTime);
 source.start(nextStartTimeRef.current);
 nextStartTimeRef.current += audioBuffer.duration;`.
A chunk is modelled as the pair `(clock, duration)`: the output clock
observed when it is handled and the decoded buffer duration. -/

/-- One scheduling step: returns the scheduled start and the new cursor. -/
def scheduleChunk (next clock dur : ℚ) : ℚ × ℚ :=
  (max next clock, max next clock + dur)

/-- Scheduled start times of a sequence of chunks handled in arrival
order, starting from logical cursor `next`. -/
def scheduleAll : ℚ → List (ℚ × ℚ) → List ℚ
  | _, [] => []
  | next, c :: rest =>
      (max next c.1) :: scheduleAll (max next c.1 + c.2) rest

theorem scheduleAll_length (next : ℚ) (cs : List (ℚ × ℚ)) :
    (scheduleAll next cs).length = cs.length := by
  induction cs generalizing next with
  | nil => rfl
  | cons c rest ih => simp [scheduleAll, ih]

theorem scheduleAll_consec (cs : List (ℚ × ℚ)) (next : ℚ) (i : ℕ)
    (h : i + 1 < cs.length) :
    (scheduleAll next cs).getD i 0 + (cs.getD i (0, 0)).2 ≤
      (scheduleAll next cs).getD (i + 1) 0 := by
  induction cs generalizing next i with
  | nil => simp at h
  | cons c rest ih =>
    cases i with
    | zero =>
      cases rest with
      | nil => simp at h
      | cons c' rest' =>
        simp only [scheduleAll, List.getD_cons_zero, List.getD_cons_succ]
        exact le_max_left _ _
    | succ k =>
      simp only [scheduleAll, List.getD_cons_succ]
      exact ih _ _ (by simpa using h)

theorem scheduleAll_dur_nonneg (cs : List (ℚ × ℚ))
    (hd : ∀ p ∈ cs, 0 ≤ p.2) (j : ℕ) (hj : j < cs.length) :
    0 ≤ (cs.getD j (0, 0)).2 := by
  apply hd
  rw [List.getD_eq_getElem cs (0, 0) hj]
  exact List.getElem_mem hj

theorem scheduleAll_mono (cs : List (ℚ × ℚ)) (next : ℚ)
    (hd : ∀ p ∈ cs, 0 ≤ p.2) (i j : ℕ) (hij : i ≤ j) (hj : j < cs.length) :
    (scheduleAll next cs).getD i 0 ≤ (scheduleAll next cs).getD j 0 := by
  induction j with
  | zero =>
    have : i = 0 := Nat.le_zero.mp hij
    simp [this]
  | succ k ih =>
    rcases Nat.le_succ_iff.mp hij with hle | heq
    · calc (scheduleAll next cs).getD i 0
          ≤ (scheduleAll next cs).getD k 0 :=
            ih hle (Nat.lt_of_succ_lt hj)
        _ ≤ (scheduleAll next cs).getD k 0 + (cs.getD k (0, 0)).2 := by
            have := scheduleAll_dur_nonneg cs hd k (Nat.lt_of_succ_lt hj)
            linarith
        _ ≤ (scheduleAll next cs).getD (k + 1) 0 :=
            scheduleAll_consec cs next k hj
    · simp [heq]

/-- Claim C1: chunks handled in arrival order are scheduled at
`max(nextStartTime, outputClock)` and the cursor advances by the chunk
duration, so scheduled start times are non-decreasing and each later
chunk starts no earlier than the start of any earlier chunk plus the
duration of that earlier chunk — scheduled buffers never overlap. -/
theorem c1_playback_ordering (next : ℚ) (cs : List (ℚ × ℚ))
    (hd : ∀ p ∈ cs, 0 ≤ p.2) (i j : ℕ) (hij : i < j) (hj : j < cs.length) :
    (scheduleAll next cs).getD i 0 ≤ (scheduleAll next cs).getD j 0 ∧
    (scheduleAll next cs).getD i 0 + (cs.getD i (0, 0)).2 ≤
      (scheduleAll next cs).getD j 0 := by
  constructor
  · exact scheduleAll_mono cs next hd i j (Nat.le_of_lt hij) hj
  · calc (scheduleAll next cs).getD i 0 + (cs.getD i (0, 0)).2
        ≤ (scheduleAll next cs).getD (i + 1) 0 :=
          scheduleAll_consec cs next i (Nat.lt_of_le_of_lt (Nat.succ_le_of_lt hij) hj)
      _ ≤ (scheduleAll next cs).getD j 0 :=
          scheduleAll_mono cs next hd (i + 1) j (Nat.succ_le_of_lt hij) hj

/-- Witness for C1: two half-second chunks arriving back to back with
the clock at 0 are scheduled at 0 and 1/2 — gapless and non-overlapping. -/
theorem c1_playback_ordering_witness :
    (∀ p ∈ [((0 : ℚ), (1 / 2 : ℚ)), (0, 1 / 2)], 0 ≤ p.2) ∧
    ((scheduleAll 0 [((0 : ℚ), (1 / 2 : ℚ)), (0, 1 / 2)]).getD 0 0 ≤
        (scheduleAll 0 [((0 : ℚ), (1 / 2 : ℚ)), (0, 1 / 2)]).getD 1 0 ∧
      (scheduleAll 0 [((0 : ℚ), (1 / 2 : ℚ)), (0, 1 / 2)]).getD 0 0 +
          ([((0 : ℚ), (1 / 2 : ℚ)), (0, 1 / 2)].getD 0 (0, 0)).2 ≤
        (scheduleAll 0 [((0 : ℚ), (1 / 2 : ℚ)), (0, 1 / 2)]).getD 1 0) :=
  ⟨by norm_num,
   c1_playback_ordering 0 [((0 : ℚ), (1 / 2 : ℚ)), (0, 1 / 2)]
     (by norm_num) 0 1 (by norm_num) (by norm_num)⟩

/-! ## File system provider (src/unnamed/part_002, `FileSystemManager`)

The directory handle is modelled as `Option` of the mounted directory
content: a list of `(filename, content)` pairs.  `getFileHandle` with
`create: true` either overwrites an existing entry or appends a new
one; the browser exception text wrapped by `readFile` is abstracted to
its exception name. -/

/-- Mounted directory content: filenames with their text content. -/
abbrev DirContent := List (String × String)

/-- Look up a file by name in the mounted directory. -/
def lookupFile (name : String) : DirContent → Option String
  | [] => none
  | (n, c) :: rest => if n = name then some c else lookupFile name rest

/-- Overwrite an existing entry or append a new one. -/
def setFile (name content : String) : DirContent → DirContent
  | [] => [(name, content)]
  | (n, c) :: rest =>
      if n = name then (n, content) :: rest else (n, c) :: setFile name content rest

namespace FileSystemManager

/-- Source `listFiles`: throws "No directory connected." without a handle,
otherwise yields the file names. -/
def listFiles (dir : Option DirContent) : Except String (List String) :=
  match dir with
  | none => .error "No directory connected."
  | some files => .ok (files.map Prod.fst)

/-- Source `readFile`: throws "No directory connected." without a handle; a
missing file rejects inside the try block and is rethrown wrapped as
"Could not read file NAME: EXN" (the DOM exception text abstracted). -/
def readFile (dir : Option DirContent) (filename : String) : Except String String :=
  match dir with
  | none => .error "No directory connected."
  | some files =>
      match lookupFile filename files with
      | some c => .ok c
      | none => .error ("Could not read file " ++ filename ++ ": NotFoundError")

/-- Source `writeFile`: throws "No directory connected." without a handle,
otherwise creates/overwrites the file and confirms. -/
def writeFile (dir : Option DirContent) (filename content : String) :
    Except String (String × DirContent) :=
  match dir with
  | none => .error "No directory connected."
  | some files => .ok ("Successfully wrote to " ++ filename, setFile filename content files)

end FileSystemManager

/-! ## Calendar provider (src/utils/calendarSystem.ts, `CalendarManager`)

Event times are epoch milliseconds (`new Date(e.time).getTime()`).
`crypto.randomUUID()` and `Date.toLocaleString()` are environment
inputs of the model. -/

structure CalendarEvent where
  id : String
  title : String
  /-- Epoch milliseconds of the stored ISO time string. -/
  time : Int
  completed : Bool
deriving DecidableEq, Repr

namespace CalendarManager

/-- The window test of `startMonitoring`:
`diff >= 0 && diff < 2000` with `diff = now - eventTime`. -/
def inWindow (eventTime nowMs : Int) : Bool :=
  decide (0 ≤ nowMs - eventTime) && decide (nowMs - eventTime < 2000)

/-- One monitor tick on one event (the `forEach` body of
`startMonitoring`): an uncompleted event inside the window fires the
alarm and is marked completed. Returns the updated event and whether
the alarm fired. -/
def monitorTick (nowMs : Int) (e : CalendarEvent) : CalendarEvent × Bool :=
  if e.completed = false ∧ inWindow e.time nowMs then
    ({ e with completed := true }, true)
  else (e, false)

/-- Run the monitor over a list of tick times (the 1-second interval
callback observed at those clock readings), collecting the tick times
at which the alarm fired for this event. -/
def runMonitor (e : CalendarEvent) : List Int → CalendarEvent × List Int
  | [] => (e, [])
  | t :: ts =>
      let step := monitorTick t e
      let rest := runMonitor step.1 ts
      (rest.1, (if step.2 then [t] else []) ++ rest.2)

/-- Source `scheduleEvent`: an unparsable time string throws; otherwise the
event is appended and a confirmation returned.  `parse` models
`new Date(s).getTime()` (`none` = `NaN`), `freshId` the generated
UUID, and `fmt` models `toLocaleString`. -/
def scheduleEvent (parse : String → Option Int) (freshId : String)
    (fmt : Int → String) (events : List CalendarEvent)
    (title timeString : String) :
    Except String (String × List CalendarEvent) :=
  match parse timeString with
  | none => .error "Invalid time format. Please use ISO 8601 or a recognizable date string."
  | some t =>
      .ok ("Scheduled \"" ++ title ++ "\" for " ++ fmt t,
           events ++ [{ id := freshId, title := title, time := t, completed := false }])

/-- Ascending insertion by event time (models the comparator
`(a, b) => timeOf a - timeOf b`). -/
def insertByTime (e : CalendarEvent) : List CalendarEvent → List CalendarEvent
  | [] => [e]
  | x :: xs => if e.time ≤ x.time then e :: x :: xs else x :: insertByTime e xs

/-- Sort events ascending by time. -/
def sortByTime : List CalendarEvent → List CalendarEvent
  | [] => []
  | x :: xs => insertByTime x (sortByTime xs)

/-- Source `listEvents`: keep events that are not completed or completed less
than one hour ago, sort ascending, format one line per event. -/
def listEvents (fmt : Int → String) (nowMs : Int)
    (events : List CalendarEvent) : String :=
  let active := events.filter fun e => !e.completed || decide (nowMs - e.time < 3600000)
  if active.length = 0 then "No upcoming events scheduled."
  else
    String.intercalate "\n" <| (sortByTime active).map fun e =>
      "[" ++ (if e.completed then "DONE" else "TODO") ++ "] " ++ fmt e.time ++ ": "
        ++ e.title ++ " (ID: " ++ e.id.take 4 ++ ")"

/-- The match test of `deleteEvent`: keep an event iff its id does not
contain the identifier and its lowercased title does not contain the
lowercased identifier. -/
def deleteMatches (e : CalendarEvent) (identifier : String) : Bool :=
  strContains e.id identifier || strContains (lowerStr e.title) (lowerStr identifier)

/-- Source `deleteEvent`: filter out every matching event; report
"Event removed." iff the list shrank. -/
def deleteEvent (events : List CalendarEvent) (identifier : String) :
    String × List CalendarEvent :=
  let remaining := events.filter fun e => !deleteMatches e identifier
  if remaining.length < events.length then ("Event removed.", remaining)
  else ("Event not found.", remaining)

end CalendarManager

/-! ## Tool dispatcher (v2 onmessage lines 845-906; v1 is the
three-tool restriction of the same loop)

A `FunctionCall` carries its id, name, and the argument properties the
dispatch code reads (`fc.args as any` is a JS object; the record below
holds the projections `args.filename`, `args.content`, ...). -/

structure FunctionCall where
  id : String
  name : String
  filename : String := ""
  content : String := ""
  title : String := ""
  time : String := ""
  identifier : String := ""
  query : String := ""
  url : String := ""
deriving DecidableEq, Repr

/-- One entry of `functionResponses`
(`{id, name, response: {result: {output}}}`, flattened to its three
strings). -/
structure ToolResponse where
  id : String
  name : String
  output : String
deriving DecidableEq, Repr

/-- The environment the dispatcher acts on: the two provider managers
held in refs, plus the ambient browser facts the tool branches read. -/
structure Env where
  /-- Field `FileSystemManager.directoryHandle` with the directory content. -/
  fs : Option DirContent := none
  /-- Field `CalendarManager.events`. -/
  events : List CalendarEvent := []
  /-- Current epoch milliseconds (`new Date().getTime()`). -/
  nowMs : Int := 0
  /-- Models `new Date(s).getTime()`; `none` models `NaN`. -/
  parseDate : String → Option Int := fun _ => none
  /-- Models `crypto.randomUUID()` for the next scheduled event. -/
  freshId : String := ""
  /-- Models `Date.toLocaleString()` rendering. -/
  fmtDate : Int → String := fun _ => ""
  /-- Whether `window.open` returns a window (popup not blocked). -/
  popupOk : Bool := true
  /-- Whether `session.close()` rejects inside `disconnect`. -/
  closeFails : Bool := false

/-- Model of `encodeURIComponent` (the encoding itself is opaque to
every claim; only the string plumbing matters). -/
def encodeURIComponentM (s : String) : String := s

/-- The Google search URL built by the `searchWeb` branch. -/
def googleSearchUrl (q : String) : String :=
  "https://www.google.com/search?q=" ++ encodeURIComponentM q

/-- Model of `JSON.stringify` on an array of filenames (escaping
abstracted). -/
def jsonStringify (xs : List String) : String :=
  "[" ++ String.intercalate "," (xs.map fun s => "\"" ++ s ++ "\"") ++ "]"

/-- Whether a tool name hits one of the registered branches of the v2
dispatch chain. -/
def registeredTool (name : String) : Bool :=
  name = "listFiles" || name = "readFile" || name = "writeFile" ||
  name = "scheduleEvent" || name = "listEvents" || name = "deleteEvent" ||
  name = "searchWeb" || name = "openUrl"

/-- The body of the try block of the v2 dispatch loop for one call:
the branch chain on `fc.name`.  Returns the result (or the thrown
message), the updated environment, and the transcript annotation the
branch appends (empty when none). -/
def runTool (env : Env) (fc : FunctionCall) : Except String String × Env × String :=
  if fc.name = "listFiles" then
    match FileSystemManager.listFiles env.fs with
    | .ok files => (.ok (jsonStringify files), env, "")
    | .error e => (.error e, env, "")
  else if fc.name = "readFile" then
    (FileSystemManager.readFile env.fs fc.filename, env, "")
  else if fc.name = "writeFile" then
    match FileSystemManager.writeFile env.fs fc.filename fc.content with
    | .ok r => (.ok r.1, { env with fs := some r.2 },
                "\n[System] Wrote to file: " ++ fc.filename ++ "\n")
    | .error e => (.error e, env, "")
  else if fc.name = "scheduleEvent" then
    match CalendarManager.scheduleEvent env.parseDate env.freshId env.fmtDate
        env.events fc.title fc.time with
    | .ok r => (.ok r.1, { env with events := r.2 },
                "\n[Calendar] Scheduled: " ++ fc.title ++ " at " ++ fc.time ++ "\n")
    | .error e => (.error e, env, "")
  else if fc.name = "listEvents" then
    (.ok (CalendarManager.listEvents env.fmtDate env.nowMs env.events), env, "")
  else if fc.name = "deleteEvent" then
    let r := CalendarManager.deleteEvent env.events fc.identifier
    (.ok r.1, { env with events := r.2 }, "")
  else if fc.name = "searchWeb" then
    ((if env.popupOk then .ok ("Opened search for \"" ++ fc.query ++ "\"")
      else .ok ("Browser blocked popup for search: " ++ googleSearchUrl fc.query)),
     env, "\n[Browser] Opening Search: " ++ fc.query ++ "\n")
  else if fc.name = "openUrl" then
    ((if env.popupOk then .ok ("Opened URL: " ++ fc.url)
      else .ok ("Browser blocked popup for URL: " ++ fc.url)),
     env, "\n[Browser] Opening URL: " ++ fc.url ++ "\n")
  else
    (.ok "Function not found", env, "")

/-- The catch clause: a thrown message becomes the output string
`"Error: " ++ message`; a normal result is used as is. -/
def outputOf : Except String String → String
  | .ok s => s
  | .error e => "Error: " ++ e

/-- One iteration of the dispatch loop: run the tool, convert the
outcome per try/catch, and send one response carrying the id and name
of the call.  Returns the response, the updated environment, and the
transcript after appending the branch annotation. -/
def dispatchOne (env : Env) (transcript : String) (fc : FunctionCall) :
    ToolResponse × Env × String :=
  let r := runTool env fc
  ({ id := fc.id, name := fc.name, output := outputOf r.1 }, r.2.1,
   transcript ++ r.2.2)

/-- The whole `for (const fc of message.toolCall.functionCalls)` loop:
one response per call, in order, threading the environment and
transcript. -/
def dispatchBatch : Env → String → List FunctionCall → List ToolResponse × Env × String
  | env, transcript, [] => ([], env, transcript)
  | env, transcript, fc :: rest =>
      let one := dispatchOne env transcript fc
      let more := dispatchBatch one.2.1 one.2.2 rest
      (one.1 :: more.1, more.2)

/-! ## Session hook state and lifecycle (useGeminiLive v2, v1 where noted) -/

/-- The `ConnectionState` of the hook. -/
inductive ConnState
  | disconnected
  | connecting
  | connected
  | error
deriving DecidableEq, Repr

/-- The mutable refs and state of the hook that the lifecycle and the
message handler touch.  Browser node refs are modelled by whether they
are currently held; active buffer sources by their scheduled starts. -/
structure HookState where
  connState : ConnState := .disconnected
  /-- Ref `sessionRef.current`, as the numeric identity of the session. -/
  session : Option Nat := none
  transcript : String := ""
  /-- Ref `nextStartTimeRef.current`. -/
  nextStartTime : ℚ := 0
  /-- Ref `activeSourcesRef.current`, each source named by its scheduled start. -/
  activeSources : List ℚ := []
  inputCtx : Bool := false
  outputCtx : Bool := false
  inputSource : Bool := false
  processor : Bool := false
  videoInterval : Bool := false
deriving DecidableEq, Repr

/-- Source `stopAudioProcessing`: disconnect and drop the processor, source,
both audio contexts and the video interval; stop every active buffer
source and clear the set.  Returns the new state and the list of
sources that were stopped. -/
def stopAudioProcessing (s : HookState) : HookState × List ℚ :=
  ({ s with
      processor := false
      inputSource := false
      inputCtx := false
      outputCtx := false
      videoInterval := false
      activeSources := [] },
   s.activeSources)

/-- Source `disconnect` (v1 lines 282-295, v2 lines 707-720): null the session
ref before awaiting its close (a close rejection, `closeFails`, is
caught and only logged), then stop audio processing, transition to
Disconnected and clear the transcript.  Returns the new state and the
stopped sources. -/
def disconnect (_closeFails : Bool) (s : HookState) : HookState × List ℚ :=
  let s1 : HookState := { s with session := none }
  let s2 := stopAudioProcessing s1
  ({ s2.1 with connState := .disconnected, transcript := "" }, s2.2)

/-! ## The v2 message handler (onmessage, lines 829-939) -/

/-- The fields of a `LiveServerMessage` the handler reads.  A present
`audioDur` models `message.serverContent?.modelTurn?.parts?.[0]?.inlineData?.data`
being present, with the duration of the decoded buffer. -/
structure Message where
  outputTranscriptionText : Option String := none
  inputTranscriptionText : Option String := none
  toolCalls : Option (List FunctionCall) := none
  audioDur : Option ℚ := none
  interrupted : Bool := false

/-- The "bye" test of the input-transcription branch:
`text.trim().toLowerCase().includes("bye")`. -/
def byeCheck (t : String) : Bool :=
  strContains (lowerStr (trimStr t)) "bye"

/-- Whether the handler takes the early `disconnect(); return` path. -/
def byeTriggered (msg : Message) : Bool :=
  match msg.inputTranscriptionText with
  | some t => byeCheck t
  | none => false

/-- Everything one `onmessage` invocation produced besides the new
state: the updated provider environment, the tool responses sent, the
buffer starts scheduled, the sources stopped, and whether `disconnect`
ran. -/
structure StepResult where
  state : HookState
  env : Env
  responses : List ToolResponse
  scheduledStarts : List ℚ
  stopped : List ℚ
  didDisconnect : Bool

/-- The v2 `onmessage` handler at output clock `clock`
(`ctx.currentTime`), in source order:
1. append any output transcription;
2. if the input transcription contains "bye": `disconnect()` and return;
3. dispatch any tool-call batch;
4. decode and schedule any audio chunk (needs the output context alive);
5. on `interrupted`: stop and clear all active sources, reset
   `nextStartTime` to 0, clear the transcript. -/
def onmessage (env : Env) (clock : ℚ) (msg : Message) (s : HookState) : StepResult :=
  let s : HookState :=
    match msg.outputTranscriptionText with
    | some t => { s with transcript := s.transcript ++ t }
    | none => s
  if byeTriggered msg then
    let d := disconnect env.closeFails s
    { state := d.1, env := env, responses := [], scheduledStarts := [],
      stopped := d.2, didDisconnect := true }
  else
    let dispatched :=
      match msg.toolCalls with
      | some calls => dispatchBatch env s.transcript calls
      | none => ([], env, s.transcript)
    let s : HookState := { s with transcript := dispatched.2.2 }
    let audio :
        HookState × List ℚ :=
      match msg.audioDur with
      | some d =>
          if s.outputCtx then
            let start := max s.nextStartTime clock
            ({ s with
                nextStartTime := start + d
                activeSources := s.activeSources ++ [start] },
             [start])
          else (s, [])
      | none => (s, [])
    if msg.interrupted then
      { state := { audio.1 with activeSources := [], nextStartTime := 0, transcript := "" }
        env := dispatched.2.1
        responses := dispatched.1
        scheduledStarts := audio.2
        stopped := audio.1.activeSources
        didDisconnect := false }
    else
      { state := audio.1
        env := dispatched.2.1
        responses := dispatched.1
        scheduledStarts := audio.2
        stopped := []
        didDisconnect := false }

/-! ## Frame-send guards (C5) and connect traces (C4)

`v1AudioSend`/`v1VideoSend` model the v1 closures
`sessionPromise.then(session => { if (sessionRef.current === session)
session.sendRealtimeInput(...) })` (lines 363-395): the frame goes to
the promise session only if the shared ref still names it.  The v2
closures (lines 800-825) have no such guard.  The result is the
session the frame is sent to, `none` when it is dropped (promise not
resolved, or guard failed). -/

def v1AudioSend (promise : Option Nat) (sessionRef : Option Nat) : Option Nat :=
  match promise with
  | some sess => if sessionRef = some sess then some sess else none
  | none => none

def v1VideoSend (promise : Option Nat) (sessionRef : Option Nat) : Option Nat :=
  match promise with
  | some sess => if sessionRef = some sess then some sess else none
  | none => none

def v2AudioSend (promise : Option Nat) (_sessionRef : Option Nat) : Option Nat :=
  match promise with
  | some sess => some sess
  | none => none

def v2VideoSend (promise : Option Nat) (_sessionRef : Option Nat) : Option Nat :=
  match promise with
  | some sess => some sess
  | none => none

/-- Observable events of one `connect()` execution, in order. -/
inductive ConnectEv
  /-- Input/output `AudioContext`s created. -/
  | ctxCreated
  /-- Step `getUserMedia` resolved: the microphone device is acquired. -/
  | micAcquired
  /-- The transport `onopen` callback fired. -/
  | transportOpened
  /-- The script-processor capture pipeline attached to the stream. -/
  | pipelineStarted
  /-- The attempt failed (getUserMedia rejected or the connect threw). -/
  | connectFailed
deriving DecidableEq, Repr

/-- v1 `connect` (onopen lines 327-376): contexts, microphone and
pipeline are all created inside the `onopen` callback. -/
def connectV1 (micOk openOk : Bool) : List ConnectEv :=
  if openOk then
    .transportOpened :: .ctxCreated ::
      (if micOk then [.micAcquired, .pipelineStarted] else [.connectFailed])
  else [.connectFailed]

/-- v2 `connect` (lines 742-771): the audio contexts are created and
`getUserMedia` is awaited before `ai.live.connect` is even called; only
the processor pipeline waits for `onopen`. -/
def connectV2 (micOk openOk : Bool) : List ConnectEv :=
  .ctxCreated ::
    (if micOk then
      .micAcquired ::
        (if openOk then [.transportOpened, .pipelineStarted] else [.connectFailed])
     else [.connectFailed])

/-- Scans a connect trace: `true` iff no microphone acquisition happens
before the first transport-open event. -/
def micOnlyAfterOpen : List ConnectEv → Bool
  | [] => true
  | .transportOpened :: _ => true
  | .micAcquired :: _ => false
  | _ :: t => micOnlyAfterOpen t

/-- Scans a connect trace: `true` iff no capture pipeline start happens
before the first transport-open event. -/
def pipelineOnlyAfterOpen : List ConnectEv → Bool
  | [] => true
  | .transportOpened :: _ => true
  | .pipelineStarted :: _ => false
  | _ :: t => pipelineOnlyAfterOpen t

/-! ## Dispatcher theorems (C2, C7) -/

theorem dispatchOne_id (env : Env) (transcript : String) (fc : FunctionCall) :
    (dispatchOne env transcript fc).1.id = fc.id := rfl

theorem dispatchOne_name (env : Env) (transcript : String) (fc : FunctionCall) :
    (dispatchOne env transcript fc).1.name = fc.name := rfl

theorem dispatchBatch_ids (calls : List FunctionCall) :
    ∀ (env : Env) (transcript : String),
      (dispatchBatch env transcript calls).1.map ToolResponse.id =
        calls.map FunctionCall.id := by
  induction calls with
  | nil => intro env transcript; rfl
  | cons fc rest ih =>
      intro env transcript
      simp [dispatchBatch, ih, dispatchOne_id]

theorem dispatchBatch_names (calls : List FunctionCall) :
    ∀ (env : Env) (transcript : String),
      (dispatchBatch env transcript calls).1.map ToolResponse.name =
        calls.map FunctionCall.name := by
  induction calls with
  | nil => intro env transcript; rfl
  | cons fc rest ih =>
      intro env transcript
      simp [dispatchBatch, ih, dispatchOne_name]

theorem dispatchBatch_length (calls : List FunctionCall) :
    ∀ (env : Env) (transcript : String),
      (dispatchBatch env transcript calls).1.length = calls.length := by
  induction calls with
  | nil => intro env transcript; rfl
  | cons fc rest ih =>
      intro env transcript
      simp [dispatchBatch, ih]

/-- Claim C2: a batch of N tool calls yields exactly N responses, the
i-th response carrying the id and the name of the i-th call; a thrown
provider failure becomes an error-text output, and an unregistered
name becomes the "Function not found" output — in both cases the
response is still sent. -/
theorem c2_tool_dispatch_integrity (env : Env) (transcript : String)
    (calls : List FunctionCall) :
    (dispatchBatch env transcript calls).1.length = calls.length ∧
    (dispatchBatch env transcript calls).1.map ToolResponse.id =
      calls.map FunctionCall.id ∧
    (dispatchBatch env transcript calls).1.map ToolResponse.name =
      calls.map FunctionCall.name ∧
    (∀ (env2 : Env) (tr2 : String) (fc : FunctionCall) (e : String),
      (runTool env2 fc).1 = Except.error e →
        (dispatchOne env2 tr2 fc).1.output = "Error: " ++ e) ∧
    (∀ (env2 : Env) (tr2 : String) (fc : FunctionCall),
      registeredTool fc.name = false →
        (dispatchOne env2 tr2 fc).1.output = "Function not found") := by
  refine ⟨dispatchBatch_length calls env transcript,
          dispatchBatch_ids calls env transcript,
          dispatchBatch_names calls env transcript, ?_, ?_⟩
  · intro env2 tr2 fc e he
    simp [dispatchOne, he, outputOf]
  · intro env2 tr2 fc h
    simp only [registeredTool, Bool.or_eq_false_iff, decide_eq_false_iff_not] at h
    obtain ⟨⟨⟨⟨⟨⟨⟨h1, h2⟩, h3⟩, h4⟩, h5⟩, h6⟩, h7⟩, h8⟩ := h
    simp [dispatchOne, runTool, outputOf, h1, h2, h3, h4, h5, h6, h7, h8]

/-- Witness for C2: a writeFile call dispatched with no mounted
directory still gets its response, with the thrown message as
error-text output. -/
theorem c2_tool_dispatch_integrity_witness :
    (dispatchOne {} ""
        { id := "call-1", name := "writeFile", filename := "a.txt", content := "x" }).1.output
      = "Error: No directory connected." :=
  (c2_tool_dispatch_integrity {} ""
      [{ id := "call-1", name := "writeFile", filename := "a.txt", content := "x" }]).2.2.2.1
    {} "" { id := "call-1", name := "writeFile", filename := "a.txt", content := "x" }
    "No directory connected." rfl

/-- Claim C7: with no directory handle mounted, the listFiles,
readFile and writeFile branches all throw "No directory connected.",
the dispatcher converts the throw into an error-text response output
containing that text, and nothing escapes the dispatch loop. -/
theorem c7_no_directory_error (env : Env) (transcript : String)
    (fc : FunctionCall) (hfs : env.fs = none)
    (hname : fc.name = "listFiles" ∨ fc.name = "readFile" ∨ fc.name = "writeFile") :
    (runTool env fc).1 = Except.error "No directory connected." ∧
    (dispatchOne env transcript fc).1.output = "Error: No directory connected." ∧
    strContains (dispatchOne env transcript fc).1.output "No directory connected" = true := by
  have hrun : (runTool env fc).1 = Except.error "No directory connected." := by
    rcases hname with h | h | h <;>
      simp [runTool, h, hfs, FileSystemManager.listFiles,
            FileSystemManager.readFile, FileSystemManager.writeFile]
  have hout : (dispatchOne env transcript fc).1.output
      = "Error: No directory connected." := by
    simp [dispatchOne, hrun, outputOf]
  refine ⟨hrun, hout, ?_⟩
  rw [hout]
  decide

/-- Witness for C7: the concrete writeFile call of the spec scenario,
with nothing mounted. -/
theorem c7_no_directory_error_witness :
    (runTool {} { id := "w1", name := "writeFile", filename := "a.txt", content := "x" }).1
        = Except.error "No directory connected." ∧
    (dispatchOne {} ""
        { id := "w1", name := "writeFile", filename := "a.txt", content := "x" }).1.output
      = "Error: No directory connected." ∧
    strContains
        (dispatchOne {} ""
          { id := "w1", name := "writeFile", filename := "a.txt", content := "x" }).1.output
        "No directory connected" = true :=
  c7_no_directory_error {} ""
    { id := "w1", name := "writeFile", filename := "a.txt", content := "x" }
    rfl (Or.inr (Or.inr rfl))

/-! ## Interrupt handling (C3) -/

/-- A message carrying both a "bye" input transcription and the
interrupted flag. -/
def c3Msg : Message :=
  { inputTranscriptionText := some "bye", interrupted := true }

/-- A connected state with a non-zero playback cursor. -/
def c3State : HookState :=
  { connState := .connected, session := some 0, transcript := "hello",
    nextStartTime := 5, activeSources := [1], inputCtx := true,
    outputCtx := true, inputSource := true, processor := true,
    videoInterval := true }

/-- Counterexample to C3 as stated: a message carrying the interrupted
signal together with a "bye" input transcription takes the early
disconnect path, which never resets `nextStartTime` — it stays at its
stale value 5 instead of 0. -/
theorem c3_interrupt_reset_counterexample :
    c3Msg.interrupted = true ∧
    (onmessage {} 0 c3Msg c3State).state.nextStartTime ≠ 0 := by
  constructor
  · rfl
  · decide

/-- Claim C3 as amended: after handling a message with the interrupted
signal whose input transcription does not trigger the "bye" early
return, every previously active buffer has been stopped, the set is
empty, `nextStartTime` is reset to 0 and the transcript is cleared. -/
theorem c3_interrupt_reset_amended (env : Env) (clock : ℚ) (msg : Message)
    (s : HookState) (hint : msg.interrupted = true)
    (hbye : byeTriggered msg = false) :
    (onmessage env clock msg s).state.activeSources = [] ∧
    (onmessage env clock msg s).state.nextStartTime = 0 ∧
    (onmessage env clock msg s).state.transcript = "" ∧
    ∀ b ∈ s.activeSources, b ∈ (onmessage env clock msg s).stopped := by
  cases hout : msg.outputTranscriptionText <;>
  cases htc : msg.toolCalls <;>
  cases had : msg.audioDur <;>
  by_cases hctx : s.outputCtx <;>
  simp [onmessage, hbye, hint, hout, htc, had, hctx, List.mem_append] <;>
  exact fun b hb => Or.inl hb

/-- Witness for C3 as amended: an interrupted message that also carries
an audio chunk, on a state with one active buffer. -/
theorem c3_interrupt_reset_amended_witness :
    (onmessage {} 0 { audioDur := some 1, interrupted := true } c3State).state.activeSources = [] ∧
    (onmessage {} 0 { audioDur := some 1, interrupted := true } c3State).state.nextStartTime = 0 ∧
    (onmessage {} 0 { audioDur := some 1, interrupted := true } c3State).state.transcript = "" ∧
    (1 : ℚ) ∈ (onmessage {} 0 { audioDur := some 1, interrupted := true } c3State).stopped := by
  have h := c3_interrupt_reset_amended {} 0
    { audioDur := some 1, interrupted := true } c3State rfl rfl
  exact ⟨h.1, h.2.1, h.2.2.1, h.2.2.2 1 (by simp [c3State])⟩

/-! ## Capture start order (C4) -/

/-- Counterexample to C4 as stated: in the v2 hook, a run whose
connection attempt fails before opening has still acquired the
microphone — device acquisition does not wait for the open callback. -/
theorem c4_capture_after_open_counterexample :
    ConnectEv.micAcquired ∈ connectV2 true false ∧
    ConnectEv.transportOpened ∉ connectV2 true false ∧
    micOnlyAfterOpen (connectV2 true false) = false := by
  decide

/-- Claim C4 as amended: in the v1 hook both microphone acquisition
and the capture pipeline start only after the open callback; in the v2
hook only the pipeline start waits for open, while the microphone is
acquired whenever `getUserMedia` succeeds, before (and regardless of)
the transport opening. -/
theorem c4_capture_after_open_amended :
    ∀ (micOk openOk : Bool),
      micOnlyAfterOpen (connectV1 micOk openOk) = true ∧
      pipelineOnlyAfterOpen (connectV1 micOk openOk) = true ∧
      pipelineOnlyAfterOpen (connectV2 micOk openOk) = true ∧
      (ConnectEv.micAcquired ∈ connectV2 micOk openOk ↔ micOk = true) := by
  decide

/-! ## Stale-session frame guard (C5) -/

/-- Counterexample to C5 as stated: in the v2 hook a frame produced by
the pipeline of session 0 is still sent to session 0 after the shared
session ref has moved on to session 1 — it is not dropped. -/
theorem c5_session_guard_counterexample :
    (some 1 : Option Nat) ≠ some 0 ∧
    v2AudioSend (some 0) (some 1) = some 0 ∧
    v2VideoSend (some 0) (some 1) = some 0 := by
  decide

/-- Claim C5 as amended: the v1 hook checks the shared session ref
immediately before sending and silently drops audio and video frames
of a superseded session; the v2 hook sends frames to the resolved
session unconditionally. -/
theorem c5_session_guard_amended (sess : Nat) (sessionRef : Option Nat)
    (hsup : sessionRef ≠ some sess) :
    v1AudioSend (some sess) sessionRef = none ∧
    v1VideoSend (some sess) sessionRef = none ∧
    v2AudioSend (some sess) sessionRef = some sess ∧
    v2VideoSend (some sess) sessionRef = some sess := by
  simp [v1AudioSend, v1VideoSend, v2AudioSend, v2VideoSend, hsup]

/-- Witness for C5 as amended: pipeline of session 0, ref moved to 1. -/
theorem c5_session_guard_amended_witness :
    v1AudioSend (some 0) (some 1) = none ∧
    v1VideoSend (some 0) (some 1) = none ∧
    v2AudioSend (some 0) (some 1) = some 0 ∧
    v2VideoSend (some 0) (some 1) = some 0 :=
  c5_session_guard_amended 0 (some 1) (by decide)

/-! ## Idempotent disconnect (C6) -/

/-- Claim C6: `disconnect` is idempotent — from any state and whether
or not the transport close rejects, one call leaves the state
Disconnected with the transcript cleared and the session handle null,
and a second call returns the same state unchanged while stopping
nothing (a no-op on the already-null session handle). -/
theorem c6_disconnect_idempotent (cf1 cf2 : Bool) (s : HookState) :
    (disconnect cf1 s).1.connState = ConnState.disconnected ∧
    (disconnect cf1 s).1.transcript = "" ∧
    (disconnect cf1 s).1.session = none ∧
    disconnect cf2 (disconnect cf1 s).1 = ((disconnect cf1 s).1, []) :=
  ⟨rfl, rfl, rfl, rfl⟩

/-! ## Alarm monitor (C8) -/

theorem runMonitor_completed (e : CalendarEvent) (h : e.completed = true) :
    ∀ ticks : List Int, CalendarManager.runMonitor e ticks = (e, []) := by
  intro ticks
  induction ticks with
  | nil => rfl
  | cons t ts ih =>
      simp [CalendarManager.runMonitor, CalendarManager.monitorTick, h, ih]

/-- Claim C8: an already-completed event never triggers and never
changes; an uncompleted event fires the alarm exactly at the first
monitor tick whose clock reading lies in `[isoTime, isoTime + 2s)` —
once, or never if no tick lands in the window — and it ends completed
precisely when the alarm fired, never reverting. -/
theorem c8_monitor_fires_once (e : CalendarEvent) (ticks : List Int) :
    (e.completed = true → CalendarManager.runMonitor e ticks = (e, [])) ∧
    (e.completed = false →
      (CalendarManager.runMonitor e ticks).2 =
        (match ticks.find? (fun t => CalendarManager.inWindow e.time t) with
         | some t => [t]
         | none => [])) ∧
    (e.completed = false →
      ((CalendarManager.runMonitor e ticks).1.completed = true ↔
        ∃ t ∈ ticks, CalendarManager.inWindow e.time t = true)) := by
  refine ⟨fun h => runMonitor_completed e h ticks, ?_, ?_⟩ <;>
  · intro h
    induction ticks with
    | nil => simp [CalendarManager.runMonitor, h]
    | cons t ts ih =>
        by_cases hw : CalendarManager.inWindow e.time t = true
        · simp [CalendarManager.runMonitor, CalendarManager.monitorTick, h, hw,
                List.find?, runMonitor_completed { e with completed := true } rfl ts]
        · simp only [Bool.not_eq_true] at hw
          simp [CalendarManager.runMonitor, CalendarManager.monitorTick, h, hw,
                List.find?, ih]

/-- Witness for C8: an event at time 0 observed by ticks at -1000, 500
and 1500 ms fires exactly once, at 500, and ends completed. -/
theorem c8_monitor_fires_once_witness :
    (CalendarManager.runMonitor
        { id := "e1", title := "Call mom", time := 0, completed := false }
        [-1000, 500, 1500]).2 = [500] ∧
    (CalendarManager.runMonitor
        { id := "e1", title := "Call mom", time := 0, completed := false }
        [-1000, 500, 1500]).1.completed = true := by
  have h := c8_monitor_fires_once
    { id := "e1", title := "Call mom", time := 0, completed := false }
    [-1000, 500, 1500]
  refine ⟨?_, ?_⟩
  · rw [h.2.1 rfl]; decide
  · exact (h.2.2 rfl).mpr ⟨500, by decide, by decide⟩

/-! ## "Bye" voice command (C9) -/

/-- Claim C9: when the input transcription of a message contains "bye"
(case-insensitive, after trimming), the v2 handler disconnects and
returns at once: no tool call of that message is dispatched, no audio
chunk is scheduled, the provider environment is untouched, and the
state is the disconnected one — in particular the interrupted branch
did not run, so `nextStartTime` keeps its prior value. -/
theorem c9_bye_disconnects (env : Env) (clock : ℚ) (msg : Message)
    (s : HookState) (t : String) (hin : msg.inputTranscriptionText = some t)
    (hbye : byeCheck t = true) :
    (onmessage env clock msg s).didDisconnect = true ∧
    (onmessage env clock msg s).responses = [] ∧
    (onmessage env clock msg s).scheduledStarts = [] ∧
    (onmessage env clock msg s).env = env ∧
    (onmessage env clock msg s).state.connState = ConnState.disconnected ∧
    (onmessage env clock msg s).state.session = none ∧
    (onmessage env clock msg s).state.transcript = "" ∧
    (onmessage env clock msg s).state.nextStartTime = s.nextStartTime := by
  have htr : byeTriggered msg = true := by
    simp [byeTriggered, hin, hbye]
  cases hout : msg.outputTranscriptionText <;>
    simp [onmessage, htr, hout, disconnect, stopAudioProcessing]

/-- A message whose input transcription says bye while also carrying a
tool call, an audio chunk and the interrupted flag. -/
def c9Msg : Message :=
  { inputTranscriptionText := some "  Okay BYE now ",
    toolCalls := some [{ id := "c1", name := "listFiles" }],
    audioDur := some 1,
    interrupted := true }

/-- Witness for C9: the bye message above, on a connected state. -/
theorem c9_bye_disconnects_witness :
    (onmessage {} 0 c9Msg c3State).didDisconnect = true ∧
    (onmessage {} 0 c9Msg c3State).responses = [] ∧
    (onmessage {} 0 c9Msg c3State).scheduledStarts = [] ∧
    (onmessage {} 0 c9Msg c3State).env = {} ∧
    (onmessage {} 0 c9Msg c3State).state.connState = ConnState.disconnected ∧
    (onmessage {} 0 c9Msg c3State).state.session = none ∧
    (onmessage {} 0 c9Msg c3State).state.transcript = "" ∧
    (onmessage {} 0 c9Msg c3State).state.nextStartTime = c3State.nextStartTime :=
  c9_bye_disconnects {} 0 c9Msg c3State "  Okay BYE now " rfl (by decide)

/-! ## deleteEvent semantics (C10) -/

/-- Claim C10: `deleteEvent` removes every event whose id contains the
identifier or whose lowercased title contains the lowercased
identifier — possibly several in one call — answering "Event removed."
iff something matched, and "Event not found." with the list unchanged
otherwise. -/
theorem c10_delete_event_matches (events : List CalendarEvent) (identifier : String) :
    (CalendarManager.deleteEvent events identifier).2 =
      events.filter (fun e => !CalendarManager.deleteMatches e identifier) ∧
    (∀ e ∈ events, CalendarManager.deleteMatches e identifier = true →
      e ∉ (CalendarManager.deleteEvent events identifier).2) ∧
    ((∃ e ∈ events, CalendarManager.deleteMatches e identifier = true) →
      (CalendarManager.deleteEvent events identifier).1 = "Event removed.") ∧
    ((∀ e ∈ events, CalendarManager.deleteMatches e identifier = false) →
      (CalendarManager.deleteEvent events identifier).1 = "Event not found." ∧
      (CalendarManager.deleteEvent events identifier).2 = events) := by
  have hsnd : (CalendarManager.deleteEvent events identifier).2 =
      events.filter (fun e => !CalendarManager.deleteMatches e identifier) := by
    by_cases hc : (events.filter (fun e => !CalendarManager.deleteMatches e identifier)).length
        < events.length <;>
      simp [CalendarManager.deleteEvent, hc]
  refine ⟨hsnd, ?_, ?_, ?_⟩
  · intro e he hm
    rw [hsnd]
    simp [List.mem_filter, hm]
  · rintro ⟨e, he, hm⟩
    have hlt : (events.filter (fun e => !CalendarManager.deleteMatches e identifier)).length
        < events.length := by
      apply List.length_filter_lt_length_iff_exists.mpr
      exact ⟨e, he, by simp [hm]⟩
    simp [CalendarManager.deleteEvent, hlt]
  · intro hall
    have heq : events.filter (fun e => !CalendarManager.deleteMatches e identifier)
        = events := by
      apply List.filter_eq_self.mpr
      intro a ha
      simp [hall a ha]
    constructor
    · simp [CalendarManager.deleteEvent, heq]
    · rw [hsnd, heq]

/-- Two events both matching the identifier "mom" by title. -/
def c10Events : List CalendarEvent :=
  [{ id := "abcd", title := "Call Mom", time := 0, completed := false },
   { id := "wxyz", title := "Mom birthday", time := 1000, completed := false }]

/-- Witness for C10: `deleteEvent "mom"` removes both matching events
in one call and reports "Event removed.". -/
theorem c10_delete_event_matches_witness :
    (CalendarManager.deleteEvent c10Events "mom").1 = "Event removed." ∧
    (CalendarManager.deleteEvent c10Events "mom").2 = [] := by
  have h := c10_delete_event_matches c10Events "mom"
  refine ⟨h.2.2.1 ⟨{ id := "abcd", title := "Call Mom", time := 0, completed := false },
    by decide, by decide⟩, ?_⟩
  rw [h.1]; decide

end GLive
